import Mathlib

/-!
Verification of the SpiralPy solver core (spsolver.py, mdrconvsolver.py).

The development shallowly embeds the trace recorder, the script emitter, the
build orchestration control flow, the metadata-search usability test, the
memory-domain dispatch of the generated native function, and the normalization
step of MdrconvSolver.solve.  Arrays are modelled by their shape together with
a flat list of rational data; the external numerical kernels (numpy pad, fft)
are abstracted as function parameters, since per the spec they are external
collaborators and only array shapes drive the trace.
-/

namespace SpiralPy

/-- Model of a numpy/cupy ndarray: its shape and a flattened data list.
Real/complex element values are modelled as rationals; FFT numerics are
external collaborators and are never computed here. -/
structure Arr where
  shape : List Nat
  data : List ℚ
deriving DecidableEq, Repr

/-- Size of an array in the numpy sense: the product of the shape entries. -/
def npSize (x : Arr) : Nat := x.shape.prod

/-- Mutable trace state of an SPSolver: the tracing flag and the call graph
list (spsolver.py lines 59-60). -/
structure TraceState where
  tracingOn : Bool
  callGraph : List String
deriving DecidableEq, Repr

/-- The string built by the tracing branch of SPSolver.zeroEmbedBox
(spsolver.py lines 321-336).  List indexing src.shape[i] is embedded as
getD with default 0; the claims only concern three-dimensional inputs.
The range endpoints are integers, matching Python int arithmetic. -/
def renderZeroEmbed (src : Arr) (padding : List (Nat × Nat)) : String :=
  let t1 := padding.getD 0 (0, 0)
  let t2 := if padding.length > 1 then padding.getD 1 (0, 0) else t1
  let t3 := if padding.length > 2 then padding.getD 2 (0, 0) else t2
  let n1 := src.shape.getD 0 0
  let n2 := src.shape.getD 1 0
  let n3 := src.shape.getD 2 0
  let N1 := t1.1 + n1 + t1.2
  let N2 := t2.1 + n2 + t2.2
  let N3 := t3.1 + n3 + t3.2
  let nnn := "[" ++ toString N1 ++ "," ++ toString N2 ++ "," ++ toString N3 ++ "]"
  let nsrange1 := "[" ++ toString t1.1 ++ ".." ++ toString ((t1.1 : Int) + n1 - 1) ++ "]"
  let nsrange2 := "[" ++ toString t2.1 ++ ".." ++ toString ((t2.1 : Int) + n2 - 1) ++ "]"
  let nsrange3 := "[" ++ toString t3.1 ++ ".." ++ toString ((t3.1 : Int) + n3 - 1) ++ "]"
  let nsr3D := "[" ++ nsrange1 ++ "," ++ nsrange2 ++ "," ++ nsrange3 ++ "]"
  "ZeroEmbedBox(" ++ nnn ++ ", " ++ nsr3D ++ ")"

/-- The string built by the tracing branch of SPSolver.rfftn
(spsolver.py lines 344-350). -/
def renderRfftn (x : Arr) : String :=
  let n1 := x.shape.getD 0 0
  let n2 := x.shape.getD 1 0
  let n3 := x.shape.getD 2 0
  let nnn := "[" ++ toString n1 ++ "," ++ toString n2 ++ "," ++ toString n3 ++ "]"
  "MDPRDFT(" ++ nnn ++ ", -1)"

/-- The string built by the tracing branch of SPSolver.pointwise
(spsolver.py lines 357-360): nElems is xp.size of the first argument, doubled. -/
def renderPointwise (x : Arr) : String :=
  let nElems := npSize x * 2
  "RCDiag(FDataOfs(symvar, " ++ toString nElems ++ ", 0))"

/-- The string built by the tracing branch of SPSolver.irfftn
(spsolver.py lines 367-373); it renders the explicit shape argument. -/
def renderIrfftn (shape : List Nat) : String :=
  let n1 := shape.getD 0 0
  let n2 := shape.getD 1 0
  let n3 := shape.getD 2 0
  let nnn := "[" ++ toString n1 ++ "," ++ toString n2 ++ "," ++ toString n3 ++ "]"
  "IMDPRDFT(" ++ nnn ++ ", 1)"

/-- The string built by the tracing branch of SPSolver.extract
(spsolver.py lines 379-384). -/
def renderExtract (N Nd : Nat) : String :=
  let nnn := "[" ++ toString N ++ "," ++ toString N ++ "," ++ toString N ++ "]"
  let ndrange := "[" ++ toString ((N : Int) - Nd) ++ ".." ++ toString ((N : Int) - 1) ++ "]"
  let ndr3D := "[" ++ ndrange ++ "," ++ ndrange ++ "," ++ ndrange ++ "]"
  "ExtractBox(" ++ nnn ++ ", " ++ ndr3D ++ ")"

/-- SPSolver.zeroEmbedBox (spsolver.py lines 318-338).  The numpy pad kernel
is the parameter padK; the value is computed before the tracing check, and the
tracing branch only pushes the rendered entry onto the head of the call graph. -/
def zeroEmbedBox (padK : Arr → List (Nat × Nat) → Arr) (st : TraceState)
    (src : Arr) (padding : List (Nat × Nat)) : Arr × TraceState :=
  let retCube := padK src padding
  if st.tracingOn then
    (retCube, { st with callGraph := renderZeroEmbed src padding :: st.callGraph })
  else
    (retCube, st)

/-- SPSolver.rfftn (spsolver.py lines 340-351) with the fft kernel abstracted. -/
def rfftn (rk : Arr → Arr) (st : TraceState) (x : Arr) : Arr × TraceState :=
  let ret := rk x
  if st.tracingOn then
    (ret, { st with callGraph := renderRfftn x :: st.callGraph })
  else
    (ret, st)

/-- SPSolver.pointwise (spsolver.py lines 353-361) with the multiply kernel
abstracted. -/
def pointwise (pk : Arr → Arr → Arr) (st : TraceState) (x y : Arr) :
    Arr × TraceState :=
  let ret := pk x y
  if st.tracingOn then
    (ret, { st with callGraph := renderPointwise x :: st.callGraph })
  else
    (ret, st)

/-- SPSolver.irfftn (spsolver.py lines 363-374) with the inverse fft kernel
abstracted. -/
def irfftn (ik : Arr → List Nat → Arr) (st : TraceState) (x : Arr)
    (shape : List Nat) : Arr × TraceState :=
  let ret := ik x shape
  if st.tracingOn then
    (ret, { st with callGraph := renderIrfftn shape :: st.callGraph })
  else
    (ret, st)

/-- One symbolic operator call of a reference run, together with the arguments
that its tracing branch renders (the five operators of spsolver.py). -/
inductive OpCall where
  | embed (src : Arr) (padding : List (Nat × Nat))
  | rfft (x : Arr)
  | pw (x y : Arr)
  | irfft (x : Arr) (shape : List Nat)
  | extractB (x : Arr) (N Nd : Nat)
deriving DecidableEq, Repr

/-- The trace entry each operator call renders (the st strings of
spsolver.py lines 336, 349, 359, 372, 383). -/
def renderOp : OpCall → String
  | .embed src padding => renderZeroEmbed src padding
  | .rfft x => renderRfftn x
  | .pw x _ => renderPointwise x
  | .irfft _ shape => renderIrfftn shape
  | .extractB _ N Nd => renderExtract N Nd

/-- The call graph produced by a traced reference run: each operator call
inserts its rendered entry at index 0 of the list (callGraph.insert(0, st)). -/
def runCalls (calls : List OpCall) : List String :=
  calls.foldl (fun g c => renderOp c :: g) []

/-- The finalization loop of SPSolver trace / MdrconvSolver trace
(spsolver.py lines 275-276, mdrconvsolver.py lines 69-70): a separator comma is
appended to every entry except the last. -/
def finalize : List String → List String
  | [] => []
  | [s] => [s]
  | s :: t :: rest => (s ++ ",") :: finalize (t :: rest)

/-- Last character of a string, used to phrase the separator property. -/
def lastChar (s : String) : Option Char := s.data.getLast?

/-- A concrete three-dimensional array used to instantiate witnesses. -/
def arr0 : Arr := ⟨[2, 2, 2], []⟩

/-- A concrete reference run with three operator calls. -/
def threeCalls : List OpCall :=
  [OpCall.rfft arr0, OpCall.pw arr0 arr0, OpCall.irfft arr0 [2, 2, 2]]

/-- Shape semantics of numpy.fft.rfftn: all axes keep their extent except the
last, which becomes n/2 + 1.  The numerical content is an external collaborator
and is not modelled; only shapes drive the trace. -/
def rfftnShapeNp : List Nat → List Nat
  | [] => []
  | [c] => [c / 2 + 1]
  | a :: b :: rest => a :: rfftnShapeNp (b :: rest)

/-- A concrete forward-fft kernel carrying numpy's shape semantics; data is not
modelled (the trace depends only on shapes). -/
def rfftnK0 (x : Arr) : Arr := ⟨rfftnShapeNp x.shape, []⟩

/-- A concrete pointwise-multiply kernel: elementwise product, shape of the
first operand (the operands have equal shape in the reference run). -/
def pointwiseK0 (x y : Arr) : Arr :=
  ⟨x.shape, List.zipWith (fun a b => a * b) x.data y.data⟩

/-- A concrete inverse-fft kernel carrying the requested output shape; data is
not modelled. -/
def irfftnK0 (_x : Arr) (shape : List Nat) : Arr := ⟨shape, []⟩

/-- MdrconvSolver.runDef (mdrconvsolver.py lines 72-79): forward transform of
src, pointwise product with sym, inverse transform back to src's shape. -/
def mdrRunDef (rk : Arr → Arr) (pk : Arr → Arr → Arr) (ik : Arr → List Nat → Arr)
    (st : TraceState) (src sym : Arr) : Arr × TraceState :=
  let r1 := rfftn rk st src
  let r2 := pointwise pk r1.2 r1.1 sym
  let r3 := irfftn ik r2.2 r2.1 src.shape
  r3

/-- Shapes produced by MdrconvSolver.buildTestInput (mdrconvsolver.py lines
172-189): testSrc is an (n1,n2,n3) cube of random reals, testSym is the rfftn
of an (n1,n2,n3) cube, so its last axis is halved.  Random data is not
modelled; the trace depends only on shapes. -/
def buildTestInputShapes (n1 n2 n3 : Nat) : List Nat × List Nat :=
  ([n1, n2, n3], rfftnShapeNp [n1, n2, n3])

/-- MdrconvSolver trace (mdrconvsolver.py lines 62-70): enable tracing with an
empty call graph, build the test input, replay runDef, and finalize the call
graph with separators.  The (random) test data is passed in as srcData/symData
since it never influences the trace. -/
def mdrTrace (rk : Arr → Arr) (pk : Arr → Arr → Arr) (ik : Arr → List Nat → Arr)
    (srcData symData : List ℚ) (n1 n2 n3 : Nat) : List String :=
  let shapes := buildTestInputShapes n1 n2 n3
  let src : Arr := ⟨shapes.1, srcData⟩
  let sym : Arr := ⟨shapes.2, symData⟩
  let r := mdrRunDef rk pk ik ⟨true, []⟩ src sym
  finalize r.2.callGraph

/-- Observable outcome of one run of SPSolver setupCFuncs: whether the prior
working directory was restored, whether the temporary build directory was
removed, whether the native build (CMake) step was invoked, whether the
metadata file was written, and the error raised, if any. -/
structure SetupOutcome where
  cwdRestored : Bool
  tempRemoved : Bool
  cmakeCalled : Bool
  metadataWritten : Bool
  error : Option String
deriving DecidableEq, Repr

/-- SPSolver setupCFuncs (spsolver.py lines 225-263).  The two external
subprocesses are abstracted by their success booleans: spiralOk is
(callSpiral == SPIRAL RET OK), cmakeOk is (callCMake == 0).  Control flow: a
temporary directory is created and entered; on generator failure the working
directory is restored and a SPIRAL error raised; otherwise (after optionally
writing metadata) CMake runs, the working directory is restored, a CMake error
is raised on nonzero exit, and only on full success is the temporary directory
removed when the keep-temp flag is unset. -/
def setupCFuncs (spiralOk cmakeOk keeptemp includeMetadata : Bool) :
    SetupOutcome :=
  if spiralOk then
    let mdWritten := includeMetadata
    if !cmakeOk then
      { cwdRestored := true, tempRemoved := false, cmakeCalled := true,
        metadataWritten := mdWritten, error := some "CMake error" }
    else if !keeptemp then
      { cwdRestored := true, tempRemoved := true, cmakeCalled := true,
        metadataWritten := mdWritten, error := none }
    else
      { cwdRestored := true, tempRemoved := false, cmakeCalled := true,
        metadataWritten := mdWritten, error := none }
  else
    { cwdRestored := true, tempRemoved := false, cmakeCalled := false,
      metadataWritten := false, error := some "SPIRAL error" }

/-- Memory domain of a buffer: host (NumPy) or device (CuPy). -/
inductive Domain where
  | host
  | device
deriving DecidableEq, Repr

/-- A raw buffer as seen by the invoker: an identity (its address), the memory
domain it resides in, its shape, and its flattened rational data. -/
structure Buf where
  id : Nat
  domain : Domain
  shape : List Nat
  data : List ℚ
deriving DecidableEq, Repr

/-- Host pointer extraction, b.ctypes.data_as(c_void_p): only a NumPy (host)
array has a ctypes attribute; on a CuPy array the attribute access fails. -/
def ctypesData (b : Buf) : Except String Nat :=
  if b.domain = Domain.host then Except.ok b.id
  else Except.error "AttributeError: ctypes"

/-- Device pointer extraction, b.data.ptr: only a CuPy (device) array exposes a
pointer there; a NumPy array's data attribute is a memoryview without ptr. -/
def dataPtr (b : Buf) : Except String Nat :=
  if b.domain = Domain.device then Except.ok b.id
  else Except.error "AttributeError: data.ptr"

/-- MdrconvSolver func (mdrconvsolver.py lines 102-122).  The dispatch looks
only at the module of src (host = NumPy, device = CuPy) and at the configured
platform flags; mainF abstracts the SPIRAL-generated native function, which
writes its raw result into dst.  Pointer extraction follows the source's
argument order: dst, then src, then sym. -/
def mdrconvFunc (mainF : List ℚ → List ℚ → List ℚ) (genCuda genHIP : Bool)
    (dst src sym : Buf) : Except String Buf :=
  if src.domain = Domain.host then
    if genCuda || genHIP then Except.error "GPU function requires CuPy arrays"
    else do
      let _ ← ctypesData dst
      let _ ← ctypesData src
      let _ ← ctypesData sym
      Except.ok { dst with data := mainF src.data sym.data }
  else
    if !genCuda && !genHIP then Except.error "CPU function requires NumPy arrays"
    else do
      let _ ← dataPtr dst
      let _ ← dataPtr src
      let _ ← dataPtr sym
      Except.ok { dst with data := mainF src.data sym.data }

/-- SPSolver func (spsolver.py lines 288-306), the single-source variant; on
the device path the source pointer is extracted before the destination one,
following the source order. -/
def spFunc (mainF : List ℚ → List ℚ) (genCuda genHIP : Bool)
    (dst src : Buf) : Except String Buf :=
  if src.domain = Domain.host then
    if genCuda || genHIP then Except.error "GPU function requires CuPy arrays"
    else do
      let _ ← ctypesData dst
      let _ ← ctypesData src
      Except.ok { dst with data := mainF src.data }
  else
    if !genCuda && !genHIP then Except.error "CPU function requires NumPy arrays"
    else do
      let _ ← dataPtr src
      let _ ← dataPtr dst
      Except.ok { dst with data := mainF src.data }

/-- Row-major slicing d[:, :, :Nx] of a (s1,s2,s3)-shaped flat data list: for
each of the s1*s2 rows of length s3, keep the first Nx elements. -/
def slice3 (s1 s2 s3 Nx : Nat) (d : List ℚ) : List ℚ :=
  (List.range (s1 * s2)).flatMap (fun r => ((d.drop (r * s3)).take s3).take Nx)

/-- The sym-slicing step of MdrconvSolver.solve (mdrconvsolver.py lines 86-91):
when sym is a cube (shape[0] == shape[2]) its last axis is cut down to
N // 2 + 1 and the result made contiguous. -/
def sliceSymCube (sym : Buf) : Buf :=
  if sym.shape.getD 0 0 = sym.shape.getD 2 0 then
    let N := sym.shape.getD 0 0
    let Nx := N / 2 + 1
    let s1 := sym.shape.getD 0 0
    let s2 := sym.shape.getD 1 0
    let s3 := sym.shape.getD 2 0
    { sym with shape := [s1, s2, min Nx s3],
               data := slice3 s1 s2 s3 Nx sym.data }
  else sym

/-- MdrconvSolver.solve (mdrconvsolver.py lines 81-100): slice sym if it is a
cube, allocate a zero destination of the problem's dimensions when none is
given (freshId names the newly allocated buffer), invoke the generated native
function, then divide the destination in place by n1*n2*n3. -/
def mdrSolve (mainF : List ℚ → List ℚ → List ℚ) (genCuda genHIP : Bool)
    (n1 n2 n3 : Nat) (src sym : Buf) (dstArg : Option Buf) (freshId : Nat) :
    Except String Buf :=
  let sym2 := sliceSymCube sym
  let dst := match dstArg with
    | some d => d
    | none => { id := freshId, domain := src.domain, shape := [n1, n2, n3],
                data := List.replicate (n1 * n2 * n3) 0 }
  match mdrconvFunc mainF genCuda genHIP dst src sym2 with
  | Except.error e => Except.error e
  | Except.ok d2 =>
      Except.ok { d2 with
        data := d2.data.map (fun q => q / ((n1 * n2 * n3 : Nat) : ℚ)) }

/-- Concrete native-function abstraction for the C8 witness. -/
def wMainF : List ℚ → List ℚ → List ℚ := fun _ _ => [6, 12]

/-- Concrete source buffer for the C8 witness. -/
def wSrc : Buf := ⟨1, Domain.host, [2, 1, 1], [1, 2]⟩

/-- Concrete sym buffer for the C8 witness (a 1x1x1 cube, so it is sliced). -/
def wSym : Buf := ⟨2, Domain.host, [1, 1, 1], [5]⟩

/-- Concrete caller-supplied destination buffer for the C8 witness. -/
def wDst : Buf := ⟨0, Domain.host, [2, 1, 1], [0, 0]⟩

/-- An exported-names sub-record: a Python dict from key strings to symbol
names, modelled as an association list with distinct keys. -/
abbrev Names := List (String × String)

/-- Modelled from the spec: the exec symbol-name key of the exported-names
sub-record (the constant lives in constants.py, which is not under src). -/
def SP_KEY_EXEC : String := "exec"

/-- Modelled from the spec: the init symbol-name key of the exported-names
sub-record (the constant lives in constants.py, which is not under src). -/
def SP_KEY_INIT : String := "init"

/-- Modelled from the spec: the destroy symbol-name key of the exported-names
sub-record (the constant lives in constants.py, which is not under src). -/
def SP_KEY_DESTROY : String := "destroy"

/-- Python dict lookup names.get(key, default). -/
def namesGet (m : Names) (k dflt : String) : String :=
  match m.find? (fun p => p.1 = k) with
  | some p => p.2
  | none => dflt

/-- The usability test applied to the metadata search result in
SPSolver init (spsolver.py line 92): the returned path is a string, the
returned names record is a dict, and the dict has more than two entries. -/
def foundUsable (path : Option String) (names : Option Names) : Bool :=
  path.isSome && (match names with
    | some m => decide (2 < m.length)
    | none => false)

/-- Modelled from the spec: a search result is usable when the exported-names
sub-record contains at least the exec and the init symbol names.  This is the
spec's wording of the invariant, kept for comparison with foundUsable. -/
def specUsable (names : Option Names) : Bool :=
  match names with
  | some m => (m.find? (fun p => p.1 = SP_KEY_EXEC)).isSome
      && (m.find? (fun p => p.1 = SP_KEY_INIT)).isSome
  | none => false

/-- Decision taken by SPSolver init when no specific library exists: load the
found library with the resolved symbol names, or build a new one. -/
inductive LibChoice where
  | useFound (path mainName initName destroyName : String)
  | build
deriving DecidableEq, Repr

/-- SPSolver init, lines 89-98 of spsolver.py: when the search result passes
foundUsable, the found library path is adopted and the three symbol names are
resolved from the names dict with the derived defaults as fallback; otherwise
setupCFuncs builds a new library. -/
def initLibChoice (defaultMain defaultInit defaultDestroy : String)
    (path : Option String) (names : Option Names) : LibChoice :=
  if foundUsable path names then
    LibChoice.useFound (path.getD "")
      (namesGet (names.getD []) SP_KEY_EXEC defaultMain)
      (namesGet (names.getD []) SP_KEY_INIT defaultInit)
      (namesGet (names.getD []) SP_KEY_DESTROY defaultDestroy)
  else
    LibChoice.build

/-- Configuration read by the script emitter: the derived base name, the two
GPU platform flags, whether single precision was selected
(opts SP OPT REALCTYPE == "float"), and the rule-tree diagnostic flag. -/
structure ScriptCfg where
  namebase : String
  genCuda : Bool
  genHIP : Bool
  realCtypeFloat : Bool
  printRuleTree : Bool
deriving DecidableEq, Repr

/-- MdrconvSolver writeScript (mdrconvsolver.py lines 125-170), one list entry
per printed line. -/
def writeScriptLines (cfg : ScriptCfg) (callGraph : List String) : List String :=
  let nameroot := cfg.namebase
  let filename := nameroot
  let ft0 := ".c"
  let ft1 := if cfg.genCuda then ".cu" else ft0
  let filetype := if cfg.genHIP then ".cpp" else ft1
  let confLine :=
    if cfg.genCuda then "conf := LocalConfig.fftx.confGPU();"
    else if cfg.genHIP then "conf := FFTXGlobals.defaultHIPConf();"
    else "conf := LocalConfig.fftx.defaultConf();"
  ["Load(fftx);", "ImportAll(fftx);", "", confLine, "",
    "t := let(symvar := var(\"sym\", TPtr(TReal)),",
    "    TFCall(",
    "        Compose(["]
  ++ callGraph.map (fun s => "            " ++ s)
  ++ ["        ]),",
    "        rec(fname := \"" ++ nameroot ++ "\", params := [symvar])",
    "    )",
    ");",
    "",
    "opts := conf.getOpts(t);"]
  ++ (if cfg.genCuda || cfg.genHIP then ["opts.wrapCFuncs := true;"] else [])
  ++ (if cfg.realCtypeFloat then ["opts.TRealCtype := \"float\";"] else [])
  ++ (if cfg.printRuleTree then ["opts.printRuleTree := true;"] else [])
  ++ ["tt := opts.tagIt(t);", "",
    "c := opts.fftxGen(tt);",
    "PrintTo(\"" ++ filename ++ filetype ++ "\", opts.prettyPrint(c));", ""]

/-- SPSolver genScript (spsolver.py lines 123-136) for an MdrconvSolver, given
the finalized trace: a blank line, a generator comment naming the class, a
comment holding the current timestamp (datetime.now rendered), a blank line,
then the writeScript body. -/
def genScriptLines (now : String) (cfg : ScriptCfg) (callGraph : List String) :
    List String :=
  ["", "# SPIRAL script generated by MdrconvSolver", "# " ++ now, ""]
  ++ writeScriptLines cfg callGraph

/-- A concrete emitter configuration used by the C6 theorems. -/
def cfg0 : ScriptCfg :=
  { namebase := "dMdrconv_4x4x4", genCuda := false, genHIP := false,
    realCtypeFloat := false, printRuleTree := false }

/-- A concrete finalized trace used by the C6 theorems. -/
def graph0 : List String :=
  ["IMDPRDFT([4,4,4], 1),", "RCDiag(FDataOfs(symvar, 96, 0)),",
    "MDPRDFT([4,4,4], -1)"]

/-- A Python value stored in the options dict: a boolean or a string. -/
inductive PyV where
  | pb (b : Bool)
  | ps (s : String)
deriving DecidableEq, Repr

/-- The options dictionary, modelled as an association list with distinct keys
in insertion order. -/
abbrev Opts := List (String × PyV)

/-- Python dict assignment o[k] = v: overwrite in place when the key exists,
otherwise append. -/
def optsSet : Opts → String → PyV → Opts
  | [], k, v => [(k, v)]
  | (k0, v0) :: rest, k, v =>
      if k0 = k then (k0, v) :: rest else (k0, v0) :: optsSet rest k v

/-- Python dict lookup o.get(k) as an Option. -/
def optsGet (o : Opts) (k : String) : Option PyV :=
  match o.find? (fun p => p.1 = k) with
  | some p => some p.2
  | none => none

/-- Modelled from the spec: the metadata-inclusion option key (the constant
lives in constants.py, which is not under src). -/
def SP_OPT_METADATA : String := "metadata"

/-- The dict mutation performed by MdrconvSolver init (mdrconvsolver.py line
57): opts[SP OPT METADATA] = True, executed on the dict object the caller
passed (or on the shared default dict). -/
def mdrconvInitOpts (opts : Opts) : Opts :=
  optsSet opts SP_OPT_METADATA (PyV.pb true)

/-- Python call semantics for constructing an MdrconvSolver: the default for
the opts parameter is a dict object evaluated once at function-definition time
and shared between calls that omit the argument.  Given the current shared
default and the optional caller argument, returns the dict now seen through
the caller's reference (or through the default) and the new shared default. -/
def mdrconvConstructOpts (sharedDefault : Opts) (arg : Option Opts) :
    Opts × Opts :=
  match arg with
  | some o => (mdrconvInitOpts o, sharedDefault)
  | none =>
      let o2 := mdrconvInitOpts sharedDefault
      (o2, o2)

/-- C9: for every symbolic operator (zeroEmbedBox, rfftn, pointwise, irfftn)
and every input, the returned value equals the underlying kernel's result
independently of the trace state, and the only state effect of an operator call
is, when tracing is on, inserting the rendered entry at the head of the trace
list; with tracing off the state is unchanged. -/
theorem ops_trace_transparent (padK : Arr → List (Nat × Nat) → Arr)
    (rk : Arr → Arr) (pk : Arr → Arr → Arr) (ik : Arr → List Nat → Arr)
    (st : TraceState) (g : List String) (src x y : Arr)
    (padding : List (Nat × Nat)) (shape : List Nat) :
    ((zeroEmbedBox padK st src padding).1 = padK src padding ∧
      (zeroEmbedBox padK ⟨true, g⟩ src padding).2
        = ⟨true, renderZeroEmbed src padding :: g⟩ ∧
      (zeroEmbedBox padK ⟨false, g⟩ src padding).2 = ⟨false, g⟩) ∧
    ((rfftn rk st x).1 = rk x ∧
      (rfftn rk ⟨true, g⟩ x).2 = ⟨true, renderRfftn x :: g⟩ ∧
      (rfftn rk ⟨false, g⟩ x).2 = ⟨false, g⟩) ∧
    ((pointwise pk st x y).1 = pk x y ∧
      (pointwise pk ⟨true, g⟩ x y).2 = ⟨true, renderPointwise x :: g⟩ ∧
      (pointwise pk ⟨false, g⟩ x y).2 = ⟨false, g⟩) ∧
    ((irfftn ik st x shape).1 = ik x shape ∧
      (irfftn ik ⟨true, g⟩ x shape).2 = ⟨true, renderIrfftn shape :: g⟩ ∧
      (irfftn ik ⟨false, g⟩ x shape).2 = ⟨false, g⟩) := by
  obtain ⟨b, g0⟩ := st
  refine ⟨⟨?_, rfl, rfl⟩, ⟨?_, rfl, rfl⟩, ⟨?_, rfl, rfl⟩, ⟨?_, rfl, rfl⟩⟩ <;>
    cases b <;> rfl

theorem lastChar_append (s t : String) (h : t.data ≠ []) :
    lastChar (s ++ t) = lastChar t := by
  show (s.data ++ t.data).getLast? = t.data.getLast?
  exact List.getLast?_append_of_ne_nil s.data h

theorem renderOp_lastChar (c : OpCall) : lastChar (renderOp c) = some ')' := by
  cases c <;>
    simp only [renderOp, renderZeroEmbed, renderRfftn, renderPointwise,
      renderIrfftn, renderExtract] <;>
    rw [lastChar_append] <;> decide

theorem runCalls_eq (calls : List OpCall) :
    runCalls calls = (calls.map renderOp).reverse := by
  have key : ∀ (l : List OpCall) (g : List String),
      l.foldl (fun g c => renderOp c :: g) g = (l.map renderOp).reverse ++ g := by
    intro l
    induction l with
    | nil => intro g; rfl
    | cons c l ih =>
        intro g
        simp [List.foldl_cons, ih (renderOp c :: g)]
  simpa using key calls []

theorem runCalls_length (calls : List OpCall) :
    (runCalls calls).length = calls.length := by
  simp [runCalls_eq]

theorem runCalls_lastChar (calls : List OpCall) (s : String)
    (hs : s ∈ runCalls calls) : lastChar s = some ')' := by
  rw [runCalls_eq, List.mem_reverse, List.mem_map] at hs
  obtain ⟨c, _, rfl⟩ := hs
  exact renderOp_lastChar c

theorem finalize_length : ∀ l : List String, (finalize l).length = l.length
  | [] => rfl
  | [_] => rfl
  | s :: t :: rest => by
      simp only [finalize, List.length_cons]
      rw [finalize_length (t :: rest)]
      simp

theorem finalize_getD_lt :
    ∀ (l : List String) (i : Nat), i + 1 < l.length →
      (finalize l).getD i "" = l.getD i "" ++ ","
  | [], i, h => by simp at h
  | [_], i, h => by simp at h
  | _ :: t :: rest, 0, _ => rfl
  | s :: t :: rest, i + 1, h => by
      have := finalize_getD_lt (t :: rest) i (by simpa using h)
      simpa [finalize] using this

theorem finalize_getD_last :
    ∀ (l : List String) (i : Nat), i + 1 = l.length →
      (finalize l).getD i "" = l.getD i ""
  | [], i, h => by simp at h
  | [_], 0, _ => rfl
  | [_], i + 1, h => by simp at h
  | s :: t :: rest, 0, h => by simp at h
  | s :: t :: rest, i + 1, h => by
      have := finalize_getD_last (t :: rest) i (by simpa using h)
      simpa [finalize] using this

/-- C2: for every reference run making k symbolic operator calls, the finalized
composition sequence has exactly k entries; every entry except the last ends
with the separator comma, and the last entry does not (each rendered operator
ends with a closing parenthesis). -/
theorem trace_finalize_spec (calls : List OpCall) :
    (finalize (runCalls calls)).length = calls.length ∧
    (∀ i, i + 1 < calls.length →
      lastChar ((finalize (runCalls calls)).getD i "") = some ',') ∧
    (∀ i, i + 1 = calls.length →
      lastChar ((finalize (runCalls calls)).getD i "") ≠ some ',') := by
  refine ⟨by rw [finalize_length, runCalls_length], ?_, ?_⟩
  · intro i hi
    have hlt : i + 1 < (runCalls calls).length := by rwa [runCalls_length]
    rw [finalize_getD_lt _ i hlt, lastChar_append _ "," (by decide)]
    rfl
  · intro i hi
    have hlast : i + 1 = (runCalls calls).length := by rwa [runCalls_length]
    rw [finalize_getD_last _ i hlast]
    have hmem : (runCalls calls).getD i "" ∈ runCalls calls := by
      have hi' : i < (runCalls calls).length := by omega
      rw [List.getD_eq_getElem _ _ hi']
      exact List.getElem_mem hi'
    rw [runCalls_lastChar calls _ hmem]
    decide

/-- Witness for C2 at a concrete three-call run: the first entry ends with the
separator and the last does not. -/
theorem trace_finalize_spec_witness :
    lastChar ((finalize (runCalls threeCalls)).getD 0 "") = some ',' ∧
    lastChar ((finalize (runCalls threeCalls)).getD 2 "") ≠ some ',' :=
  ⟨(trace_finalize_spec threeCalls).2.1 0 (by decide),
   (trace_finalize_spec threeCalls).2.2 2 (by decide)⟩

/-- C1 counterexample: on dimensions (4,4,4) the MdrconvSolver trace recorder
produces a finalized composition sequence of exactly 3 entries, not 4 — the
reference pipeline of runDef has no embed step, so no ZeroEmbedBox entry is
produced. -/
theorem mdrTrace_four_entry_counterexample :
    (mdrTrace rfftnK0 pointwiseK0 irfftnK0 [] [] 4 4 4).length = 3 := by rfl

/-- C1 amended: on dimensions (4,4,4), CPU platform, double precision, forward
direction, the trace recorder on MdrconvSolver's reference pipeline (forward
transform, pointwise, inverse transform) produces a finalized composition
sequence of exactly 3 entries — in emitted outer-to-inner order the inverse
transform, the pointwise diagonal, and the forward transform — whose transform
entries' dimension boxes read [4,4,4]; no embed entry occurs.  The result is
independent of the random test data. -/
theorem mdrTrace_data_irrelevant (srcData symData : List ℚ) (n1 n2 n3 : Nat) :
    mdrTrace rfftnK0 pointwiseK0 irfftnK0 srcData symData n1 n2 n3 =
      mdrTrace rfftnK0 pointwiseK0 irfftnK0 [] [] n1 n2 n3 := rfl

theorem mdrTrace_concrete (srcData symData : List ℚ) :
    mdrTrace rfftnK0 pointwiseK0 irfftnK0 srcData symData 4 4 4 =
      ["IMDPRDFT([4,4,4], 1),", "RCDiag(FDataOfs(symvar, 96, 0)),",
        "MDPRDFT([4,4,4], -1)"] := by
  rw [mdrTrace_data_irrelevant]
  rfl

/-- C3 counterexample: with the keep-temp flag unset, a generator error leaves
the temporary directory in place — contradicting the claim that the temporary
directory is deleted on every exit path unless the keep flag is set. -/
theorem setupCFuncs_tempdir_counterexample :
    (setupCFuncs false true false false).error = some "SPIRAL error" ∧
    (setupCFuncs false true false false).tempRemoved = false := by
  exact ⟨rfl, rfl⟩

/-- C3 amended: the temporary directory is removed exactly on the full success
path (generator and build both succeed) with the keep-temp flag unset; on the
generator-error and build-error paths it is left in place.  The prior working
directory is restored on every path. -/
theorem setupCFuncs_temp_removed_iff (spiralOk cmakeOk keeptemp includeMetadata : Bool) :
    (setupCFuncs spiralOk cmakeOk keeptemp includeMetadata).tempRemoved
      = (!keeptemp && spiralOk && cmakeOk) ∧
    (setupCFuncs spiralOk cmakeOk keeptemp includeMetadata).cwdRestored = true := by
  cases spiralOk <;> cases cmakeOk <;> cases keeptemp <;> cases includeMetadata <;>
    exact ⟨rfl, rfl⟩

/-- C7: when the external generator fails, setupCFuncs restores the prior
working directory, raises the SPIRAL (generator) error, and never invokes the
native CMake build step. -/
theorem setupCFuncs_generator_error (cmakeOk keeptemp includeMetadata : Bool) :
    (setupCFuncs false cmakeOk keeptemp includeMetadata).cwdRestored = true ∧
    (setupCFuncs false cmakeOk keeptemp includeMetadata).error = some "SPIRAL error" ∧
    (setupCFuncs false cmakeOk keeptemp includeMetadata).cmakeCalled = false := by
  exact ⟨rfl, rfl, rfl⟩

theorem except_bind_ok {α β : Type} (a : α) (f : α → Except String β) :
    (Except.ok a : Except String α) >>= f = f a := rfl

theorem except_bind_error {α β : Type} (e : String) (f : α → Except String β) :
    (Except.error e : Except String α) >>= f = Except.error e := rfl

/-- C4 counterexample: a host source with a device destination on a
CPU-configured solver passes the dispatch check (which inspects only the
source), and the failure that does occur is the destination's attribute access
— not either of the solver's domain-mismatch errors.  So a mixed invocation
does not raise a domain-mismatch error. -/
theorem func_domain_mismatch_counterexample :
    mdrconvFunc (fun _ _ => []) false false
        ⟨0, Domain.device, [1], []⟩ ⟨1, Domain.host, [1], []⟩
        ⟨2, Domain.host, [1], []⟩
      = Except.error "AttributeError: ctypes" ∧
    "AttributeError: ctypes" ≠ "GPU function requires CuPy arrays" ∧
    "AttributeError: ctypes" ≠ "CPU function requires NumPy arrays" := by
  exact ⟨rfl, by decide, by decide⟩

/-- C4 amended: the dispatch checks only the source buffer's domain against the
configured platform — a host source on a GPU-configured solver raises the GPU
domain error and a device source on a CPU-configured solver raises the CPU
domain error, in both cases independently of the destination; the destination's
domain is never checked by the solver, and the native function's invocation
completes only when destination, source and sym all reside in the source's
domain and that domain matches the platform. -/
theorem func_dispatch_characterization (mainF : List ℚ → List ℚ → List ℚ)
    (genCuda genHIP : Bool) (dst src sym : Buf) :
    (mdrconvFunc mainF genCuda genHIP dst src sym
        = Except.error "GPU function requires CuPy arrays"
      ↔ src.domain = Domain.host ∧ (genCuda || genHIP) = true) ∧
    (mdrconvFunc mainF genCuda genHIP dst src sym
        = Except.error "CPU function requires NumPy arrays"
      ↔ src.domain = Domain.device ∧ genCuda = false ∧ genHIP = false) ∧
    (∀ out, mdrconvFunc mainF genCuda genHIP dst src sym = Except.ok out →
      dst.domain = src.domain ∧ sym.domain = src.domain ∧
      out = { dst with data := mainF src.data sym.data }) := by
  cases hs : src.domain <;> cases hd : dst.domain <;> cases hy : sym.domain <;>
    cases genCuda <;> cases genHIP <;>
    simp [mdrconvFunc, ctypesData, dataPtr, hs, hd, hy, except_bind_ok,
      except_bind_error]

/-- Witness for C4 amended: at an all-host CPU invocation the native call
completes and the characterization reports matching domains. -/
theorem func_dispatch_characterization_witness :
    (⟨0, Domain.host, [1], []⟩ : Buf).domain
        = (⟨1, Domain.host, [1], []⟩ : Buf).domain ∧
    (⟨2, Domain.host, [1], []⟩ : Buf).domain
        = (⟨1, Domain.host, [1], []⟩ : Buf).domain :=
  have h := (func_dispatch_characterization (fun _ _ => [(5 : ℚ)]) false false
    ⟨0, Domain.host, [1], []⟩ ⟨1, Domain.host, [1], []⟩
    ⟨2, Domain.host, [1], []⟩).2.2
    ⟨0, Domain.host, [1], [(5 : ℚ)]⟩ (by rfl)
  ⟨h.1, h.2.1⟩

/-- C8: after a successful solve on a caller-supplied destination buffer, the
returned buffer is the very destination buffer (same identity: division happens
in place), and every element equals the corresponding element of the raw
native-function result divided by n1*n2*n3. -/
theorem mdrSolve_normalization (mainF : List ℚ → List ℚ → List ℚ)
    (genCuda genHIP : Bool) (n1 n2 n3 : Nat) (src sym dstB : Buf)
    (freshId : Nat) (out : Buf)
    (h : mdrSolve mainF genCuda genHIP n1 n2 n3 src sym (some dstB) freshId
          = Except.ok out) :
    out.id = dstB.id ∧
    out.data = (mainF src.data (sliceSymCube sym).data).map
        (fun q => q / ((n1 * n2 * n3 : Nat) : ℚ)) ∧
    ∀ i, i < out.data.length →
      out.data.getD i 0
        = (mainF src.data (sliceSymCube sym).data).getD i 0
            / ((n1 * n2 * n3 : Nat) : ℚ) := by
  have hfunc := (func_dispatch_characterization mainF genCuda genHIP dstB src
    (sliceSymCube sym)).2.2
  simp only [mdrSolve] at h
  rcases hcall : mdrconvFunc mainF genCuda genHIP dstB src (sliceSymCube sym)
    with e | d2
  · rw [hcall] at h
    exact absurd h (by simp)
  · rw [hcall] at h
    have hd2 := hfunc d2 hcall
    have hout : out = { d2 with
        data := d2.data.map (fun q => q / ((n1 * n2 * n3 : Nat) : ℚ)) } := by
      simpa using h.symm
    have hdata : d2.data = mainF src.data (sliceSymCube sym).data := by
      rw [hd2.2.2]
    refine ⟨?_, ?_, ?_⟩
    · rw [hout, hd2.2.2]
    · rw [hout, hdata]
    · intro i hi
      have hlen : out.data.length
          = (mainF src.data (sliceSymCube sym).data).length := by
        rw [hout, hdata]; simp
      have hi2 : i < (mainF src.data (sliceSymCube sym).data).length := by
        rw [← hlen]; exact hi
      rw [hout, hdata]
      rw [List.getD_eq_getElem _ _ (by simpa using hi2),
        List.getD_eq_getElem _ _ hi2]
      simp

/-- Witness for C8: at a concrete successful CPU invocation with raw result
[6, 12] on dimensions (2,1,1), the returned buffer keeps the destination's
identity and its data is the raw result divided elementwise by 2. -/
theorem mdrSolve_normalization_witness :
    (⟨0, Domain.host, [2, 1, 1], [3, 6]⟩ : Buf).id = wDst.id ∧
    (⟨0, Domain.host, [2, 1, 1], [3, 6]⟩ : Buf).data
      = (wMainF wSrc.data (sliceSymCube wSym).data).map
          (fun q => q / ((2 * 1 * 1 : Nat) : ℚ)) :=
  have h := mdrSolve_normalization wMainF false false 2 1 1 wSrc wSym wDst 9
    ⟨0, Domain.host, [2, 1, 1], [3, 6]⟩ (by
      simp [mdrSolve, mdrconvFunc, sliceSymCube, slice3, wMainF, wSrc, wSym,
        wDst, ctypesData, dataPtr, except_bind_ok, List.range_succ]
      norm_num)
  ⟨h.1, h.2.1⟩

/-- C5 counterexample: a names record containing exactly the exec and the init
symbol names satisfies the spec's usability condition, yet the code rejects it
(its length is not greater than two) and builds a new library instead. -/
theorem foundUsable_counterexample :
    specUsable (some [(SP_KEY_EXEC, "f"), (SP_KEY_INIT, "init_f")]) = true ∧
    foundUsable (some "libfound.so")
        (some [(SP_KEY_EXEC, "f"), (SP_KEY_INIT, "init_f")]) = false ∧
    initLibChoice "m" "i" "d" (some "libfound.so")
        (some [(SP_KEY_EXEC, "f"), (SP_KEY_INIT, "init_f")])
      = LibChoice.build := by
  refine ⟨by decide, by decide, ?_⟩
  rfl

/-- C5 amended: a search result is considered usable — so that the found
library is loaded instead of building a new one — exactly when the returned
path is a string and the exported-names dict has more than two entries; the
particular keys present are never inspected by the test, and the exec, init and
destroy names are then read with the derived defaults as fallback. -/
theorem initLibChoice_usable_iff (dm di dd p : String) (m : Names)
    (hm : 2 < m.length) :
    initLibChoice dm di dd (some p) (some m)
      = LibChoice.useFound p (namesGet m SP_KEY_EXEC dm)
          (namesGet m SP_KEY_INIT di) (namesGet m SP_KEY_DESTROY dd) ∧
    (∀ m2 : Names, ¬ 2 < m2.length →
      initLibChoice dm di dd (some p) (some m2) = LibChoice.build) ∧
    (∀ ns : Option Names, initLibChoice dm di dd none ns = LibChoice.build) := by
  refine ⟨?_, ?_, ?_⟩
  · simp [initLibChoice, foundUsable, hm]
  · intro m2 hm2
    simp [initLibChoice, foundUsable, hm2]
  · intro ns
    cases ns <;> simp [initLibChoice, foundUsable]

/-- Witness for C5 amended: a three-entry names dict is accepted and its names
resolved; a two-entry dict is rejected. -/
theorem initLibChoice_usable_iff_witness :
    initLibChoice "m" "i" "d" (some "libfound.so")
        (some [("exec", "f"), ("init", "g"), ("other", "h")])
      = LibChoice.useFound "libfound.so" "f" "g" "d" ∧
    initLibChoice "m" "i" "d" (some "libfound.so")
        (some [("exec", "f"), ("init", "g")])
      = LibChoice.build :=
  have h := initLibChoice_usable_iff "m" "i" "d" "libfound.so"
    [("exec", "f"), ("init", "g"), ("other", "h")] (by decide)
  ⟨by rw [h.1]; rfl, h.2.1 [("exec", "f"), ("init", "g")] (by decide)⟩

/-- C6 counterexample: two generations from the same finalized trace and the
same configuration but at different clock readings produce different script
text — the header embeds the timestamp, so the emitted output is not a
function of trace and configuration alone. -/
theorem genScript_timestamp_counterexample :
    genScriptLines "Mon Jan 01 00:00:00 2024" cfg0 graph0
      ≠ genScriptLines "Mon Jan 01 00:00:01 2024" cfg0 graph0 := by
  decide

/-- C6 amended: the script text is a deterministic function of the finalized
trace sequence, the configuration, and the rendered timestamp; two generations
with the same trace and configuration agree on every line except the timestamp
comment at line index 2. -/
theorem genScript_deterministic_modulo_timestamp (now1 now2 : String)
    (cfg : ScriptCfg) (g : List String) :
    (genScriptLines now1 cfg g).length = (genScriptLines now2 cfg g).length ∧
    ∀ i, i ≠ 2 →
      (genScriptLines now1 cfg g).getD i "" = (genScriptLines now2 cfg g).getD i "" := by
  refine ⟨by simp [genScriptLines], ?_⟩
  intro i hi
  match i with
  | 0 => rfl
  | 1 => rfl
  | 2 => exact absurd rfl hi
  | n + 3 => rfl

/-- Witness for C6 amended: at two concrete timestamps the first body line
(line index 4, "Load(fftx);") coincides. -/
theorem genScript_deterministic_modulo_timestamp_witness :
    (genScriptLines "Mon Jan 01 00:00:00 2024" cfg0 graph0).getD 4 ""
      = (genScriptLines "Mon Jan 01 00:00:01 2024" cfg0 graph0).getD 4 "" :=
  (genScript_deterministic_modulo_timestamp "Mon Jan 01 00:00:00 2024"
    "Mon Jan 01 00:00:01 2024" cfg0 graph0).2 4 (by decide)

theorem optsGet_optsSet (o : Opts) (k : String) (v : PyV) :
    optsGet (optsSet o k v) k = some v := by
  induction o with
  | nil => simp [optsSet, optsGet, List.find?]
  | cons p rest ih =>
      obtain ⟨k0, v0⟩ := p
      by_cases h : k0 = k
      · subst h
        simp [optsSet, optsGet, List.find?]
      · simp only [optsSet, if_neg h]
        simpa [optsGet, List.find?, h] using ih

/-- C10: constructing an MdrconvSolver mutates the caller-supplied options
dict — afterwards the metadata key maps to true in the very dict the caller
passed — and, because the default argument is a shared mutable dict, a
construction that omits the argument leaves the metadata key set to true in
the shared default, which persists into later constructions that also omit it. -/
theorem mdrconv_opts_mutation (d o : Opts) :
    optsGet (mdrconvConstructOpts d (some o)).1 SP_OPT_METADATA
      = some (PyV.pb true) ∧
    (mdrconvConstructOpts d (some o)).2 = d ∧
    optsGet (mdrconvConstructOpts d none).2 SP_OPT_METADATA
      = some (PyV.pb true) ∧
    optsGet (mdrconvConstructOpts (mdrconvConstructOpts d none).2 none).1
        SP_OPT_METADATA
      = some (PyV.pb true) := by
  refine ⟨?_, rfl, ?_, ?_⟩ <;>
    exact optsGet_optsSet _ SP_OPT_METADATA (PyV.pb true)

end SpiralPy

